import Mathlib

/-!
Shallow embedding of the authenticated shopping-cart subsystem of `src/app.js`
(a Koa HTTP application backed by a relational store).

The embedded pieces are:
* the `authenticateToken` middleware (lines 17-33);
* the `POST /add-to-cart` handler (lines 140-176);
* the `GET /get-cart` handler (lines 178-197);
* the `GET /calculate-total` handler (lines 199-230);
* the role gate of `POST /add-product` (lines 104-108), used only to compare
  failure statuses.

The `shopping_carts` table is modelled as a list of rows in insertion order;
`SELECT * FROM shopping_carts WHERE user_id = $1` followed by `rows[0]` is the
first matching row.  The per-item price lookup of `/calculate-total`
(`SELECT price FROM your_database_table_name WHERE id = $1`) is modelled as a
function from product id to an optional price; prices are embedded as rationals
(the JavaScript runtime computes with IEEE-754 doubles, which this embedding
does not model).  An empty result set makes `rows[0].price` throw, which the
surrounding `try`/`catch` turns into a 500 response.

Concurrency of two in-flight `add-to-cart` requests is modelled by splitting
the handler at its `await` points into atomic database actions (the SELECT,
then the INSERT or UPDATE computed from the captured SELECT result) and
interleaving the actions of the two requests under an explicit schedule.
-/

/-- A cart line item exactly as built by the `add-to-cart` handler:
`{ productId, quantity }` (lines 152 and 160).  The handler performs no
validation, so the quantity is any integer. -/
structure CartLineItem where
  productId : String
  quantity : Int
deriving DecidableEq, Repr

/-- A row of the `shopping_carts` table: the `user_id` key and the `products`
column.  `products` is `Option`-valued because the stored column may be null —
the `/calculate-total` handler guards with `cart.products || []` (line 212). -/
structure CartRow where
  userId : String
  products : Option (List CartLineItem)
deriving DecidableEq, Repr

/-- The `shopping_carts` table, rows in insertion order. -/
abbrev CartStore := List CartRow

/-- The `SELECT * FROM shopping_carts WHERE user_id = $1` query followed by the
handlers' `rows[0]`: the first row whose `user_id` matches, if any. -/
def findCart (store : CartStore) (userId : String) : Option CartRow :=
  store.find? (fun r => r.userId == userId)

/-- The `UPDATE shopping_carts SET products = $1 WHERE user_id = $2` statement:
every matching row gets the new products list. -/
def updateProducts (store : CartStore) (userId : String)
    (ps : List CartLineItem) : CartStore :=
  store.map (fun r => if r.userId == userId then ⟨r.userId, some ps⟩ else r)

/-- Outcome of the `POST /add-to-cart` handler: 200 with the inserted or
updated cart row, or the catch-all 500 `Internal Server Error`. -/
inductive AddToCartResult where
  | ok (cart : CartRow)
  | serverError
deriving DecidableEq, Repr

/-- The `POST /add-to-cart` handler (lines 140-176), already authenticated,
keyed by `ctx.state.user.id`.  SELECT the user's cart; if no row exists,
INSERT a new row whose products list holds the one new item and return it;
otherwise append the new item to the products read by the SELECT and UPDATE.
A stored null `products` column makes the spread `[...existingProducts, ...]`
throw, caught as a 500 response. -/
def addToCart (store : CartStore) (userId productId : String) (quantity : Int) :
    CartStore × AddToCartResult :=
  match findCart store userId with
  | none =>
      let newCart : CartRow := ⟨userId, some [⟨productId, quantity⟩]⟩
      (store ++ [newCart], .ok newCart)
  | some row =>
      match row.products with
      | none => (store, .serverError)
      | some existingProducts =>
          let updatedProducts := existingProducts ++ [⟨productId, quantity⟩]
          (updateProducts store userId updatedProducts,
            .ok ⟨userId, some updatedProducts⟩)

/-- Outcome of the `GET /get-cart` handler: 200 with the cart row, 404
(`Корзина не найдена`) when no row exists, or the catch-all 500. -/
inductive GetCartResult where
  | ok (cart : CartRow)
  | notFound
  | serverError
deriving DecidableEq, Repr

/-- The `GET /get-cart` handler (lines 178-197), already authenticated: return
the first matching row, or 404 when there is none.  The 500 branch is the
catch-all for a thrown storage error, which this model (with total store
reads) never produces. -/
def getCart (store : CartStore) (userId : String) : GetCartResult :=
  match findCart store userId with
  | some cart => .ok cart
  | none => .notFound

/-- The per-item price lookup of `GET /calculate-total`
(`SELECT price FROM your_database_table_name WHERE id = $1`): a map from
product id to price.  `none` models an empty result set, where
`productInfo.rows[0].price` throws. -/
abbrev Catalog := String → Option ℚ

/-- The `products.reduce` accumulation of `GET /calculate-total`
(lines 214-221): a left-to-right fold with accumulator `acc`; each item's
price is looked up and `price * quantity` is added; a failed lookup throws,
aborting the whole computation (`none`).  The addition here is exact rational
arithmetic, an idealization: the source adds JavaScript numbers, i.e.
IEEE-754 doubles, whose addition is not associative, so properties that
depend on the exactness or reassociation of the accumulation are outside
this embedding. -/
def totalOfItems (catalog : Catalog) : List CartLineItem → ℚ → Option ℚ
  | [], acc => some acc
  | product :: rest, acc =>
      match catalog product.productId with
      | none => none
      | some productPrice =>
          totalOfItems catalog rest (acc + productPrice * (product.quantity : ℚ))

/-- Outcome of the `GET /calculate-total` handler: 200 with `{ total }`, 404
(`Корзина не найдена`) when no cart row exists, or 500 when a price lookup
throws. -/
inductive CalcTotalResult where
  | ok (total : ℚ)
  | notFound
  | serverError
deriving DecidableEq, Repr

/-- The `GET /calculate-total` handler (lines 199-230), already authenticated:
SELECT the cart (404 if absent), take `cart.products || []`, and reduce the
items to a total; a throwing price lookup is caught as a 500 response. -/
def calculateTotal (store : CartStore) (catalog : Catalog) (userId : String) :
    CalcTotalResult :=
  match findCart store userId with
  | none => .notFound
  | some cart =>
      match totalOfItems catalog (cart.products.getD []) 0 with
      | some total => .ok total
      | none => .serverError

/-- The principal stored in `ctx.state.user` by the middleware: the `id` and
`role` fields signed into the JWT at registration and login. -/
structure Principal where
  id : String
  role : String
deriving DecidableEq, Repr

/-- Outcome of the `authenticateToken` middleware: 401 `Access Denied`,
403 `Invalid Token`, or pass-through with the verified user. -/
inductive AuthResult where
  | accessDenied
  | invalidToken
  | authenticated (user : Principal)
deriving DecidableEq, Repr

/-- The `authenticateToken` middleware (lines 17-33): a missing authorization
header is rejected with 401 `Access Denied`; a header whose `jwt.verify` fails
(invalid or expired token, modelled by `verify` returning `none`) is rejected
with 403 `Invalid Token`; otherwise the verified user is stored and the
request proceeds. -/
def authenticateToken (verify : String → Option Principal)
    (authorization : Option String) : AuthResult :=
  match authorization with
  | none => .accessDenied
  | some token =>
      match verify token with
      | some user => .authenticated user
      | none => .invalidToken

/-- The HTTP status set by each rejecting branch of `authenticateToken`
(`ctx.status = 401` on line 20, `ctx.status = 403` on line 30). -/
def AuthResult.failureStatus : AuthResult → Option Nat
  | .accessDenied => some 401
  | .invalidToken => some 403
  | .authenticated _ => none

/-- The role gate of `POST /add-product` (lines 104-108): a valid principal
whose role is not `admin` receives 403; otherwise no status is forced. -/
def addProductRoleCheck (user : Principal) : Option Nat :=
  if user.role == "admin" then none else some 403

/-- `POST /add-to-cart` as reached through the middleware: the handler reads
only `ctx.state.user.id` (line 143). -/
def addToCartEndpoint (store : CartStore) (user : Principal)
    (productId : String) (quantity : Int) : CartStore × AddToCartResult :=
  addToCart store user.id productId quantity

/-- `GET /get-cart` as reached through the middleware: the handler reads only
`ctx.state.user.id` (line 180). -/
def getCartEndpoint (store : CartStore) (user : Principal) : GetCartResult :=
  getCart store user.id

/-- `GET /calculate-total` as reached through the middleware: the handler
reads only `ctx.state.user.id` (line 201). -/
def calculateTotalEndpoint (store : CartStore) (catalog : Catalog)
    (user : Principal) : CalcTotalResult :=
  calculateTotal store catalog user.id

/-- A control point of one in-flight `add-to-cart` request, split at the
handler's `await` boundaries: before its SELECT, after its SELECT with the
result captured, or finished. -/
inductive Phase where
  | start
  | readDone (found : Option CartRow)
  | finished (result : AddToCartResult)
deriving DecidableEq, Repr

/-- One atomic database action of the `add-to-cart` handler for `item`:
first the SELECT, then — computed from the *captured* SELECT result, exactly
as the handler uses `existingCart.rows[0]` — the INSERT of a fresh one-item
row or the UPDATE with the appended list. -/
def handlerStep (store : CartStore) (userId : String) (item : CartLineItem) :
    Phase → CartStore × Phase
  | .start => (store, .readDone (findCart store userId))
  | .readDone none =>
      let newCart : CartRow := ⟨userId, some [item]⟩
      (store ++ [newCart], .finished (.ok newCart))
  | .readDone (some row) =>
      match row.products with
      | none => (store, .finished .serverError)
      | some existingProducts =>
          let updatedProducts := existingProducts ++ [item]
          (updateProducts store userId updatedProducts,
            .finished (.ok ⟨userId, some updatedProducts⟩))
  | .finished r => (store, .finished r)

/-- The shared table together with the control points of two in-flight
`add-to-cart` requests (A and B) for the same user. -/
structure RaceState where
  store : CartStore
  phaseA : Phase
  phaseB : Phase
deriving DecidableEq, Repr

/-- Let request A (`true`) or request B (`false`) perform its next database
action. -/
def raceStep (userId : String) (itemA itemB : CartLineItem) (s : RaceState)
    (pickA : Bool) : RaceState :=
  if pickA then
    let next := handlerStep s.store userId itemA s.phaseA
    ⟨next.1, next.2, s.phaseB⟩
  else
    let next := handlerStep s.store userId itemB s.phaseB
    ⟨next.1, s.phaseA, next.2⟩

/-- Interleaved execution of two `add-to-cart` requests for the same user,
under a schedule listing which request acts next. -/
def runRace (userId : String) (itemA itemB : CartLineItem) (init : CartStore)
    (schedule : List Bool) : RaceState :=
  schedule.foldl (raceStep userId itemA itemB) ⟨init, .start, .start⟩

/-- A SELECT after an UPDATE of the same user's products sees the first
matching row with the new products list. -/
theorem findCart_updateProducts (store : CartStore) (userId : String)
    (ps : List CartLineItem) :
    findCart (updateProducts store userId ps) userId
      = (findCart store userId).map (fun r => ⟨r.userId, some ps⟩) := by
  simp only [findCart, updateProducts]
  induction store with
  | nil => rfl
  | cons r rest ih =>
    by_cases h : r.userId = userId
    · subst h
      simp [List.find?_cons]
    · have hb : (r.userId == userId) = false := beq_eq_false_iff_ne.mpr h
      simp only [List.map_cons, List.find?_cons, hb]
      simpa [hb] using ih

/-- A line item whose price lookup fails makes the whole reduce fail. -/
theorem totalOfItems_eq_none (catalog : Catalog) (l : List CartLineItem)
    (acc : ℚ) (item : CartLineItem) (hmem : item ∈ l)
    (hfail : catalog item.productId = none) :
    totalOfItems catalog l acc = none := by
  induction l generalizing acc with
  | nil => cases hmem
  | cons hd tl ih =>
    cases hmem with
    | head => simp only [totalOfItems, hfail]
    | tail _ hmem2 =>
      cases h : catalog hd.productId with
      | none => simp only [totalOfItems, h]
      | some p =>
        simp only [totalOfItems, h]
        exact ih _ hmem2

/-- C1: starting from an empty cart for principal `P`, adding product `X` with
quantity 2 and then product `Y` with quantity 1, with catalog prices
`X = 10.00` and `Y = 5.00`, `calculate-total` answers a total of 25.00. -/
theorem c1_scenario_total_25 :
    calculateTotal
        (addToCart (addToCart [⟨"P", some []⟩] "P" "X" 2).1 "P" "Y" 1).1
        (fun pid => if pid == "X" then some 10 else if pid == "Y" then some 5 else none)
        "P"
      = .ok 25 := by
  simp [calculateTotal, addToCart, findCart, updateProducts, totalOfItems,
    List.find?_cons]
  norm_num

/-- C3 counterexample: `add-to-cart` with quantity 0 for a user with no cart
does not fail validation — it creates a cart (the store changes) and answers
200 with a cart containing the zero-quantity line item.  The handler has no
validation branch at all. -/
theorem c3_counterexample :
    (addToCart [] "u" "X" 0).1 ≠ ([] : CartStore) ∧
      (addToCart [] "u" "X" 0).2 = .ok ⟨"u", some [⟨"X", 0⟩]⟩ :=
  ⟨by simp [addToCart, findCart], rfl⟩

/-- C3 (amended): `add-to-cart` performs no quantity validation.  For every
user with no cart and every product id, quantity 0 is accepted: a cart is
created containing the single line item with quantity 0, and the handler
answers 200 with that cart. -/
theorem c3_amended_no_validation (userId productId : String) :
    addToCart [] userId productId 0
      = ([⟨userId, some [⟨productId, 0⟩]⟩],
          .ok ⟨userId, some [⟨productId, 0⟩]⟩) := rfl

/-- C6: for a user whose stored cart row holds the item list `items`,
`add-to-cart` stores `items` with the new line item appended at the end —
with no merging even if `items` already holds the same product id — and
answers 200 with the full updated cart; a subsequent `get-cart` sees the
same appended list. -/
theorem c6_append_no_merge (store : CartStore) (userId productId : String)
    (quantity : Int) (items : List CartLineItem)
    (h : findCart store userId = some ⟨userId, some items⟩) :
    (addToCart store userId productId quantity).2
        = .ok ⟨userId, some (items ++ [⟨productId, quantity⟩])⟩ ∧
      getCart (addToCart store userId productId quantity).1 userId
        = .ok ⟨userId, some (items ++ [⟨productId, quantity⟩])⟩ := by
  unfold addToCart
  rw [h]
  refine ⟨rfl, ?_⟩
  unfold getCart
  rw [findCart_updateProducts, h]
  rfl

/-- Witness for C6, with the new line item referencing the product already in
the cart: the result is two separate line items, not a merged quantity. -/
theorem c6_witness :
    findCart [⟨"u", some [⟨"X", 2⟩]⟩] "u" = some ⟨"u", some [⟨"X", 2⟩]⟩ ∧
      ((addToCart [⟨"u", some [⟨"X", 2⟩]⟩] "u" "X" 3).2
          = .ok ⟨"u", some [⟨"X", 2⟩, ⟨"X", 3⟩]⟩ ∧
        getCart (addToCart [⟨"u", some [⟨"X", 2⟩]⟩] "u" "X" 3).1 "u"
          = .ok ⟨"u", some [⟨"X", 2⟩, ⟨"X", 3⟩]⟩) :=
  ⟨rfl, c6_append_no_merge [⟨"u", some [⟨"X", 2⟩]⟩] "u" "X" 3 [⟨"X", 2⟩] rfl⟩

/-- C2 counterexample: the interleaving A-SELECT, B-SELECT, A-UPDATE, B-UPDATE
of two `add-to-cart` requests for the same user (whose cart row exists with an
empty products list) loses A's update: both requests answer 200 claiming
their item was stored, but the final stored cart holds only B's item. -/
theorem c2_counterexample :
    runRace "u" ⟨"X", 1⟩ ⟨"Y", 1⟩ [⟨"u", some []⟩] [true, false, true, false]
        = ⟨[⟨"u", some [⟨"Y", 1⟩]⟩],
            .finished (.ok ⟨"u", some [⟨"X", 1⟩]⟩),
            .finished (.ok ⟨"u", some [⟨"Y", 1⟩]⟩)⟩ ∧
      getCart
          (runRace "u" ⟨"X", 1⟩ ⟨"Y", 1⟩ [⟨"u", some []⟩]
            [true, false, true, false]).store "u"
        = .ok ⟨"u", some [⟨"Y", 1⟩]⟩ :=
  ⟨rfl, rfl⟩

/-- C2 (amended): the no-lost-update guarantee holds only for serial
execution.  Two `add-to-cart` requests for the same new user executed one
after the other (schedule A, A, B, B) leave a cart holding exactly both line
items; the interleaved schedule of the counterexample loses the first
writer's item. -/
theorem c2_amended_serial_only (userId : String) (itemA itemB : CartLineItem) :
    getCart (runRace userId itemA itemB [] [true, true, false, false]).store
        userId
      = .ok ⟨userId, some [itemA, itemB]⟩ := by
  simp [runRace, raceStep, handlerStep, findCart, getCart, updateProducts,
    List.find?_cons]

/-- C4: if any line item of the user's stored cart has a product id with no
price row, the whole `calculate-total` request fails (the thrown
`rows[0].price` access is caught as a 500 response) and no total value is
returned for any cart — no zero substitution and no partial total. -/
theorem c4_unresolvable_fails_whole (store : CartStore) (catalog : Catalog)
    (userId : String) (cart : CartRow) (item : CartLineItem)
    (hc : findCart store userId = some cart)
    (hmem : item ∈ cart.products.getD [])
    (hfail : catalog item.productId = none) :
    calculateTotal store catalog userId = .serverError ∧
      ∀ q : ℚ, calculateTotal store catalog userId ≠ .ok q := by
  have htot : totalOfItems catalog (cart.products.getD []) 0 = none :=
    totalOfItems_eq_none catalog _ 0 item hmem hfail
  have hmain : calculateTotal store catalog userId = .serverError := by
    unfold calculateTotal
    simp only [hc, htot]
  exact ⟨hmain, fun q hq =>
    CalcTotalResult.noConfusion (hmain ▸ hq)⟩

/-- Witness for C4: a one-item cart whose product id resolves to no price. -/
theorem c4_witness :
    findCart [⟨"u", some [⟨"gone", 1⟩]⟩] "u" = some ⟨"u", some [⟨"gone", 1⟩]⟩ ∧
      (⟨"gone", 1⟩ : CartLineItem)
          ∈ (CartRow.products ⟨"u", some [⟨"gone", 1⟩]⟩).getD [] ∧
      (fun _ : String => (none : Option ℚ)) "gone" = none ∧
      (calculateTotal [⟨"u", some [⟨"gone", 1⟩]⟩] (fun _ => none) "u"
          = .serverError ∧
        ∀ q : ℚ,
          calculateTotal [⟨"u", some [⟨"gone", 1⟩]⟩] (fun _ => none) "u"
            ≠ .ok q) :=
  ⟨rfl, by simp, rfl,
    c4_unresolvable_fails_whole [⟨"u", some [⟨"gone", 1⟩]⟩] (fun _ => none) "u"
      ⟨"u", some [⟨"gone", 1⟩]⟩ ⟨"gone", 1⟩ rfl (by simp) rfl⟩

/-- C5: for a user with no cart row, `get-cart` answers the explicit 404
"no cart" outcome — distinct from the 500 error outcome and from any 200
cart value — and `calculate-total` likewise answers 404, never a zero
total. -/
theorem c5_no_cart_outcome (store : CartStore) (userId : String)
    (h : findCart store userId = none) :
    (getCart store userId = .notFound ∧
        (∀ c, getCart store userId ≠ .ok c) ∧
        getCart store userId ≠ .serverError) ∧
      ∀ catalog : Catalog,
        calculateTotal store catalog userId = .notFound ∧
          calculateTotal store catalog userId ≠ .ok 0 := by
  have hg : getCart store userId = .notFound := by
    unfold getCart
    simp only [h]
  have hcalc : ∀ catalog : Catalog,
      calculateTotal store catalog userId = .notFound := by
    intro catalog
    unfold calculateTotal
    simp only [h]
  exact ⟨⟨hg, fun c hc => GetCartResult.noConfusion (hg ▸ hc),
      fun hc => GetCartResult.noConfusion (hg ▸ hc)⟩,
    fun catalog => ⟨hcalc catalog,
      fun hc => CalcTotalResult.noConfusion (hcalc catalog ▸ hc)⟩⟩

/-- Witness for C5: the empty table has no cart for user `ghost`. -/
theorem c5_witness :
    findCart [] "ghost" = none ∧
      ((getCart [] "ghost" = .notFound ∧
          (∀ c, getCart [] "ghost" ≠ .ok c) ∧
          getCart [] "ghost" ≠ .serverError) ∧
        ∀ catalog : Catalog,
          calculateTotal [] catalog "ghost" = .notFound ∧
            calculateTotal [] catalog "ghost" ≠ .ok 0) :=
  ⟨rfl, c5_no_cart_outcome [] "ghost" rfl⟩

/-- C9 counterexample: a present-but-unverifiable (invalid or expired)
credential is rejected by `authenticateToken` with status 403 `Invalid
Token` — not the 401 "unauthorized" status of the missing-credential branch,
and exactly the status of the insufficient-role authorization failure of the
`add-product` role gate. -/
theorem c9_counterexample :
    authenticateToken (fun _ => none) (some "expired") = .invalidToken ∧
      AuthResult.failureStatus .invalidToken = some 403 ∧
      AuthResult.failureStatus .invalidToken
          ≠ AuthResult.failureStatus .accessDenied ∧
      addProductRoleCheck ⟨"alice", "customer"⟩ = some 403 :=
  ⟨rfl, rfl, by simp [AuthResult.failureStatus], rfl⟩

/-- C9 (amended): a missing credential fails with 401 `Access Denied`; a
present but invalid or expired credential fails with 403 `Invalid Token`,
the same status as the insufficient-role authorization failure of the
`add-product` role gate; and the three cart operations apply no role
restriction — their outcome depends only on the principal's id. -/
theorem c9_auth_statuses (verify : String → Option Principal) (t : String)
    (hbad : verify t = none) :
    authenticateToken verify none = .accessDenied ∧
      AuthResult.failureStatus (authenticateToken verify none) = some 401 ∧
      authenticateToken verify (some t) = .invalidToken ∧
      AuthResult.failureStatus (authenticateToken verify (some t)) = some 403 ∧
      (∀ role, role ≠ "admin" →
        addProductRoleCheck ⟨"any", role⟩
          = AuthResult.failureStatus (authenticateToken verify (some t))) ∧
      (∀ uid role role2 store productId quantity,
        addToCartEndpoint store ⟨uid, role⟩ productId quantity
          = addToCartEndpoint store ⟨uid, role2⟩ productId quantity) ∧
      (∀ uid role role2 store,
        getCartEndpoint store ⟨uid, role⟩ = getCartEndpoint store ⟨uid, role2⟩) ∧
      (∀ uid role role2 store catalog,
        calculateTotalEndpoint store catalog ⟨uid, role⟩
          = calculateTotalEndpoint store catalog ⟨uid, role2⟩) := by
  have h1 : authenticateToken verify none = .accessDenied := rfl
  have h2 : authenticateToken verify (some t) = .invalidToken := by
    unfold authenticateToken
    simp only [hbad]
  refine ⟨h1, by rw [h1]; rfl, h2, by rw [h2]; rfl, ?_, fun _ _ _ _ _ _ => rfl,
    fun _ _ _ _ => rfl, fun _ _ _ _ _ => rfl⟩
  intro role hrole
  rw [h2]
  simp [addProductRoleCheck, AuthResult.failureStatus, hrole]

/-- Witness for C9: a verifier that rejects every token. -/
theorem c9_witness :
    ((fun _ : String => (none : Option Principal)) "x" = none) ∧
      (authenticateToken (fun _ => none) none = .accessDenied ∧
        AuthResult.failureStatus (authenticateToken (fun _ => none) none)
            = some 401 ∧
        authenticateToken (fun _ => none) (some "x") = .invalidToken ∧
        AuthResult.failureStatus (authenticateToken (fun _ => none) (some "x"))
            = some 403 ∧
        (∀ role, role ≠ "admin" →
          addProductRoleCheck ⟨"any", role⟩
            = AuthResult.failureStatus
                (authenticateToken (fun _ => none) (some "x"))) ∧
        (∀ uid role role2 store productId quantity,
          addToCartEndpoint store ⟨uid, role⟩ productId quantity
            = addToCartEndpoint store ⟨uid, role2⟩ productId quantity) ∧
        (∀ uid role role2 store,
          getCartEndpoint store ⟨uid, role⟩
            = getCartEndpoint store ⟨uid, role2⟩) ∧
        (∀ uid role role2 store catalog,
          calculateTotalEndpoint store catalog ⟨uid, role⟩
            = calculateTotalEndpoint store catalog ⟨uid, role2⟩)) :=
  ⟨rfl, c9_auth_statuses (fun _ => none) "x" rfl⟩

/-- C10: for a user whose cart row exists but whose stored products column is
null or the empty list, `calculate-total` succeeds with total 0 (the
`cart.products || []` guard turns null into an empty reduce), not a 404 and
not an error. -/
theorem c10_empty_or_null_zero_total (store : CartStore) (catalog : Catalog)
    (userId : String) (cart : CartRow)
    (hc : findCart store userId = some cart)
    (hp : cart.products = none ∨ cart.products = some []) :
    calculateTotal store catalog userId = .ok 0 := by
  unfold calculateTotal
  simp only [hc]
  rcases hp with h | h <;> simp [h, totalOfItems]

/-- Witness for C10: a cart row with a null products column. -/
theorem c10_witness :
    findCart [⟨"u", (none : Option (List CartLineItem))⟩] "u"
        = some ⟨"u", none⟩ ∧
      ((CartRow.products ⟨"u", none⟩) = none ∨
        (CartRow.products ⟨"u", none⟩) = some []) ∧
      calculateTotal [⟨"u", none⟩] (fun _ => some 1) "u" = .ok 0 :=
  ⟨rfl, Or.inl rfl,
    c10_empty_or_null_zero_total [⟨"u", none⟩] (fun _ => some 1) "u"
      ⟨"u", none⟩ rfl (Or.inl rfl)⟩
